import Mathlib

/-!
Verification of the smart-orchestrator core of the bridge-engineering
multi-agent repository.

The definitions below are a shallow embedding of the Python source:

* `analyzeQuery`     embeds `SmartOrchestrator._analyze_query`
  (src/smart_orchestrator.py, lines 167-230);
* `previewStrategy`  embeds the routing-preview logic of the Streamlit UI
  (src/streamlit_app_v1.py, lines 211-242);
* `preprocessQuery`  embeds `SmartOrchestrator._preprocess_query`
  (src/smart_orchestrator.py, lines 232-256);
* `extractFromA2A`   embeds `SmartOrchestrator._extract_from_a2a_response`
  (src/smart_orchestrator.py, lines 533-575);
* `runOrchestrator`  embeds `SmartOrchestrator.run` and the strategy
  pattern methods (src/smart_orchestrator.py, lines 258-488);
* `createVizExtract` embeds the deep (history-traversing) extraction of
  `create_visualization` (src/streamlit_app.py, lines 122-187).

Python strings are modelled as Lean `String`, machine bytes as `Nat`
lists, dictionaries as association lists, raised exceptions as `Except`
values, and duck-typed optional attributes as `Option` fields.
-/

/-! ### Python string primitives -/

/-- Model of CPython `str.lower` on one ASCII character. -/
def pyLowerChar (c : Char) : Char :=
  if 'A' ≤ c ∧ c ≤ 'Z' then Char.ofNat (c.toNat + 32) else c

/-- Model of CPython `str.lower` (the queries handled here are ASCII). -/
def pyLower (s : String) : String :=
  ⟨s.data.map pyLowerChar⟩

/-- Model of the CPython substring test `needle in hay`. -/
def isInfixB (needle : List Char) : List Char → Bool
  | [] => needle.isEmpty
  | c :: rest => needle.isPrefixOf (c :: rest) || isInfixB needle rest

/-- `sub in s` on Lean strings. -/
def strIn (sub s : String) : Bool :=
  isInfixB sub.data s.data

/-- The characters CPython `str.strip()` removes. -/
def pyIsSpace (c : Char) : Bool :=
  c = ' ' || c = '\t' || c = '\n' || c = '\r' || c = '\x0b' || c = '\x0c'

/-- Model of CPython `str.strip()`. -/
def pyStrip (s : String) : String :=
  ⟨((s.data.dropWhile pyIsSpace).reverse.dropWhile pyIsSpace).reverse⟩

/-- The left-to-right deletion scan of CPython `s.replace(pat, '')`,
written with a fuel argument so that the kernel can evaluate it; the
scan consumes at least one character per step, so any fuel of at least
`s.length` yields the untruncated scan (`replaceAll` passes exactly
`s.length`). -/
def replaceAllFuel (pat : List Char) : Nat → List Char → List Char
  | _, [] => []
  | 0, s => s
  | fuel + 1, c :: rest =>
    if pat ≠ [] ∧ pat.isPrefixOf (c :: rest) then
      replaceAllFuel pat fuel (rest.drop (pat.length - 1))
    else
      c :: replaceAllFuel pat fuel rest

/-- Model of CPython `s.replace(pat, '')`: delete every left-to-right
non-overlapping occurrence of `pat` in one pass. -/
def replaceAll (pat s : List Char) : List Char :=
  replaceAllFuel pat s.length s

/-- Fuelled occurrence counter matching the scan of `replaceAllFuel`. -/
def countMatchesFuel (pat : List Char) : Nat → List Char → Nat
  | _, [] => 0
  | 0, _ => 0
  | fuel + 1, c :: rest =>
    if pat ≠ [] ∧ pat.isPrefixOf (c :: rest) then
      1 + countMatchesFuel pat fuel (rest.drop (pat.length - 1))
    else
      countMatchesFuel pat fuel rest

/-- The number of occurrences of `pat` that the left-to-right scan of
`replaceAll` deletes. -/
def countMatches (pat s : List Char) : Nat :=
  countMatchesFuel pat s.length s

/-! ### Query classification (`SmartOrchestrator._analyze_query`) -/

/-- Visualization keywords of `_analyze_query`. -/
def vizKeywords : List String :=
  ["chart", "graph", "plot", "visualiz", "bar", "line", "pie"]

/-- Databricks/catalog keywords of `_analyze_query`. -/
def databricksKeywords : List String :=
  ["gdot", "standard", "material", "databricks", "catalog",
   "environmental", "compliance", "beam type", "design parameter"]

/-- SQL/structural keywords of `_analyze_query`. -/
def sqlKeywords : List String :=
  ["bridge", "span", "beam", "1001", "structural"]

/-- The routing dictionary returned by `_analyze_query`. -/
structure RoutingInfo where
  strategy : String
  workflow : Option String
  agents : List String
  is_visualization : Bool
  is_databricks : Bool
  is_sql : Bool
deriving DecidableEq

/-- Embedding of `SmartOrchestrator._analyze_query`. -/
def analyzeQuery (query : String) : RoutingInfo :=
  let ql := pyLower query
  let is_visualization := vizKeywords.any (fun kw => strIn kw ql)
  let is_databricks := databricksKeywords.any (fun kw => strIn kw ql)
  let is_sql := sqlKeywords.any (fun kw => strIn kw ql)
  if is_visualization && is_databricks && is_sql then
    ⟨"three_agent_workflow", some "comparison_chart", ["SQL", "Databricks", "Python"],
      is_visualization, is_databricks, is_sql⟩
  else if is_visualization && is_sql then
    ⟨"sequential_chart", some "chart_workflow", ["SQL", "Python"],
      is_visualization, is_databricks, is_sql⟩
  else if is_databricks && is_sql then
    ⟨"concurrent_data", some "data_workflow", ["SQL", "Databricks"],
      is_visualization, is_databricks, is_sql⟩
  else if is_databricks then
    ⟨"direct_databricks", none, ["Databricks"],
      is_visualization, is_databricks, is_sql⟩
  else if is_sql then
    ⟨"direct_sql", none, ["SQL"],
      is_visualization, is_databricks, is_sql⟩
  else
    ⟨"direct_sql", none, ["SQL"],
      is_visualization, is_databricks, is_sql⟩

/-- The phrases `_preprocess_query` deletes, in source order. -/
def vizStripPhrases : List String :=
  ["as a bar chart", "as a chart", "as a graph", "as a plot",
   "visualize", "visualization", "create a chart", "show chart",
   "plot this", "graph this"]

/-- Embedding of `SmartOrchestrator._preprocess_query`. -/
def preprocessQuery (query : String) (routing : RoutingInfo) : String :=
  if routing.is_visualization then
    pyStrip ⟨vizStripPhrases.foldl (fun acc kw => replaceAll kw.data acc) query.data⟩
  else
    query

/-! ### UI routing preview (`streamlit_app_v1.main`, lines 211-242) -/

/-- Visualization keywords of the UI preview (a shorter list than the
one used by the orchestrator). -/
def previewVizKeywords : List String := ["chart", "graph", "plot", "visualiz"]

/-- Databricks keywords of the UI preview. -/
def previewDbKeywords : List String := ["gdot", "standard", "material", "databricks"]

/-- SQL keywords of the UI preview. -/
def previewSqlKeywords : List String := ["bridge", "span", "beam", "1001"]

/-- Costing/market keywords of the UI preview. -/
def costingKeywords : List String :=
  ["cost", "price", "pricing", "market", "budget", "vendor",
   "supplier", "economic", "forecast", "trend", "inflation"]

/-- Embedding of the routing-preview decision chain of
`streamlit_app_v1.main`: the strategy label the UI displays. -/
def previewStrategy (q : String) : String :=
  let ql := pyLower q
  let is_viz := previewVizKeywords.any (fun kw => strIn kw ql)
  let is_db := previewDbKeywords.any (fun kw => strIn kw ql)
  let is_sql := previewSqlKeywords.any (fun kw => strIn kw ql)
  let is_costing := costingKeywords.any (fun kw => strIn kw ql)
  if is_costing then "Direct Bing Grounding Agent"
  else if is_viz && is_db && is_sql then "Three-Agent Workflow"
  else if is_viz && is_sql then "Sequential Chart Workflow"
  else if is_db && is_sql then "Parallel Data Workflow"
  else if is_db then "Direct Databricks Agent"
  else "Direct SQL Agent"

/-! ### Base64 decoding (model of CPython `base64.b64decode`) -/

/-- The value of one character of the standard base64 alphabet, `none`
for a character outside it. -/
def b64CharVal (c : Char) : Option Nat :=
  if 'A' ≤ c ∧ c ≤ 'Z' then some (c.toNat - 65)
  else if 'a' ≤ c ∧ c ≤ 'z' then some (c.toNat - 97 + 26)
  else if '0' ≤ c ∧ c ≤ '9' then some (c.toNat - 48 + 52)
  else if c = '+' then some 62
  else if c = '/' then some 63
  else none

/-- Decode successive groups of four base64 characters into bytes;
`none` models the `binascii.Error` CPython raises on a leftover group
or misplaced padding. -/
def b64Groups : List Char → Option (List Nat)
  | [] => some []
  | a :: b :: c :: d :: rest =>
    match b64CharVal a, b64CharVal b with
    | some va, some vb =>
      if c = '=' then
        if d = '=' ∧ rest = [] then some [va * 4 + vb / 16] else none
      else
        match b64CharVal c with
        | some vc =>
          if d = '=' then
            if rest = [] then some [va * 4 + vb / 16, (vb % 16) * 16 + vc / 4] else none
          else
            match b64CharVal d with
            | some vd =>
              match b64Groups rest with
              | some bytes =>
                some ([va * 4 + vb / 16, (vb % 16) * 16 + vc / 4, (vc % 4) * 64 + vd] ++ bytes)
              | none => none
            | none => none
        | none => none
    | _, _ => none
  | _ => none

/-- Model of CPython `base64.b64decode(s)` with its default lenient
validation: characters outside the alphabet and padding are discarded,
then the remainder must decode in groups of four. -/
def b64decode (s : String) : Option (List Nat) :=
  b64Groups (s.data.filter (fun c => (b64CharVal c).isSome || c = '='))

/-! ### A2A response model and
`SmartOrchestrator._extract_from_a2a_response` -/

/-- Duck-typed `FileWithBytes`: each field is optional because the
extractor probes it with `hasattr`/`getattr`. -/
structure FileObj where
  bytes : Option String
  mime_type : Option String
  name : Option String
deriving DecidableEq

/-- Duck-typed part root carrying an optional `text` and an optional
`file` attribute. -/
structure PartRoot where
  text : Option String
  file : Option FileObj
deriving DecidableEq

/-- A part either wraps a root object (`part.root`) or is probed
directly (`part_root = part.root if hasattr(part, "root") else part`). -/
inductive A2APart where
  | rooted (r : PartRoot)
  | unrooted (r : PartRoot)
deriving DecidableEq

/-- The root object the extractor works on for a given part. -/
def partRootOf : A2APart → PartRoot
  | .rooted r => r
  | .unrooted r => r

/-- A status message with an optional `parts` attribute. -/
structure StatusMessage where
  parts : Option (List A2APart)
deriving DecidableEq

/-- A task status with an optional `message` attribute. -/
structure TaskStatus where
  message : Option StatusMessage
deriving DecidableEq

/-- A task with an optional `status` attribute. -/
structure A2ATask where
  status : Option TaskStatus
deriving DecidableEq

/-- An A2A response with an optional `raw_representation` list. -/
structure A2AResponse where
  raw_representation : Option (List A2ATask)
deriving DecidableEq

/-- One extracted image: decoded bytes plus the `mime_type` and `name`
attributes (defaulted by `getattr` when absent). -/
structure ImageInfo where
  data : List Nat
  mime_type : String
  name : String
deriving DecidableEq

/-- The normalized `{text, images}` payload. -/
structure ExtractedPayload where
  text : String
  images : List ImageInfo
deriving DecidableEq

/-- The text of a part root when the probe
`hasattr(part_root, "text") and part_root.text` succeeds (present and
non-empty). -/
def partTextOk (r : PartRoot) : Option String :=
  match r.text with
  | some t => if t = "" then none else some t
  | none => none

/-- Processing of one part root by `_extract_from_a2a_response`: append
its non-empty text, else decode and append its file bytes, skipping the
part when base64 decoding fails (the `try/except` around
`base64.b64decode`). -/
def partStep (acc : List String × List ImageInfo) (r : PartRoot) :
    List String × List ImageInfo :=
  match partTextOk r with
  | some t => (acc.1 ++ [t], acc.2)
  | none =>
    match r.file with
    | some f =>
      match f.bytes with
      | some b =>
        if b = "" then acc
        else
          match b64decode b with
          | some bs =>
            (acc.1, acc.2 ++ [⟨bs, f.mime_type.getD "image/png", f.name.getD "image.png"⟩])
          | none => acc
      | none => acc
    | none => acc

/-- The parts loop of `_extract_from_a2a_response` for one task,
guarded by the `hasattr`/truthiness probes on `status`, `message` and
`parts`. -/
def taskStep (acc : List String × List ImageInfo) (task : A2ATask) :
    List String × List ImageInfo :=
  match task.status with
  | some st =>
    match st.message with
    | some msg =>
      match msg.parts with
      | some ps =>
        if ps.isEmpty then acc
        else ps.foldl (fun a p => partStep a (partRootOf p)) acc
      | none => acc
    | none => acc
  | none => acc

/-- Embedding of `SmartOrchestrator._extract_from_a2a_response`. -/
def extractFromA2A (resp : A2AResponse) : ExtractedPayload :=
  match resp.raw_representation with
  | some tasks =>
    if tasks.isEmpty then ⟨"", []⟩
    else
      let acc := tasks.foldl taskStep ([], [])
      ⟨String.intercalate "\n" acc.1, acc.2⟩
  | none => ⟨"", []⟩

/-- The part roots reachable through one task: the parts of its final
status message, empty whenever any link on the status / message / parts
chain is absent. -/
def taskRootsOf (t : A2ATask) : List PartRoot :=
  (((t.status.bind TaskStatus.message).bind StatusMessage.parts).getD []).map partRootOf

/-- The part roots actually reachable in a response. -/
def responseRoots (resp : A2AResponse) : List PartRoot :=
  (resp.raw_representation.getD []).flatMap taskRootsOf

/-- Build the payload by a single flat pass over a list of part
roots. -/
def payloadOfRoots (roots : List PartRoot) : ExtractedPayload :=
  let acc := roots.foldl partStep ([], [])
  ⟨String.intercalate "\n" acc.1, acc.2⟩

/-! ### Orchestrator execution (`SmartOrchestrator.run` and the
pattern methods) -/

/-- The three remote agent calls available to the orchestrator; a call
either returns a response or raises (modelled by `Except`, the error
carrying `str(e)`). -/
structure AgentEnv where
  sql : String → Except String A2AResponse
  databricks : String → Except String A2AResponse
  python : String → Except String A2AResponse

/-- The result dictionary built by `SmartOrchestrator.run`;
`agent_responses` is an insertion-ordered map. -/
structure OrchResult where
  query : String
  routing : RoutingInfo
  text : String
  images : List ImageInfo
  agent_responses : List (String × String)
  error : Option String
deriving DecidableEq

/-- Model of `asyncio.gather` over the two fan-out calls: both tasks
run; if either raises, the joint await raises that exception. -/
def gather2 (a b : Except String A2AResponse) :
    Except String (A2AResponse × A2AResponse) :=
  match a, b with
  | .error e, _ => .error e
  | _, .error e => .error e
  | .ok x, .ok y => .ok (x, y)

/-- The visualization prompt of `_run_chart_workflow` (line 405). -/
def chartVizPrompt (sqlText origQuery : String) : String :=
  "Create a bar chart for this data:\n\n" ++ sqlText ++ "\n\nOriginal request: " ++ origQuery

/-- The combined data block of `_run_three_agent_workflow` (line 358). -/
def combinedData (sqlText dbText : String) : String :=
  "=== Bridge Data (SQL) ===\n" ++ sqlText ++ "\n\n=== GDOT Standards (Databricks) ===\n" ++ dbText

/-- The visualization prompt of `_run_three_agent_workflow` (line 359). -/
def threeAgentVizPrompt (sqlText dbText origQuery : String) : String :=
  "Create a comparison visualization for this data:\n\n" ++ combinedData sqlText dbText
    ++ "\n\nOriginal request: " ++ origQuery

/-- Embedding of `_run_direct_agent`: one agent call, extraction, and
the three result-dictionary writes.  An exception from the call
propagates with the result still untouched. -/
def runDirectAgent (call : String → Except String A2AResponse) (query : String)
    (r : OrchResult) (agentName : String) : Except (String × OrchResult) OrchResult :=
  match call query with
  | .error e => .error (e, r)
  | .ok resp =>
    let ex := extractFromA2A resp
    .ok { r with
      text := ex.text
      images := ex.images
      agent_responses := r.agent_responses ++ [(agentName, ex.text)] }

/-- Embedding of `_run_data_workflow`: concurrent SQL + Databricks
calls joined by `asyncio.gather`; extraction and all result writes
happen only after both calls returned. -/
def runDataWorkflow (env : AgentEnv) (query : String) (r : OrchResult) :
    Except (String × OrchResult) OrchResult :=
  match gather2 (env.sql query) (env.databricks query) with
  | .error e => .error (e, r)
  | .ok (sqlResp, dbResp) =>
    let s := extractFromA2A sqlResp
    let d := extractFromA2A dbResp
    .ok { r with
      text := "=== SQL Foundry Agent ===\n" ++ s.text ++ "\n\n=== Databricks Agent ===\n" ++ d.text
      images := s.images ++ d.images
      agent_responses := r.agent_responses ++ [("sql", s.text), ("databricks", d.text)] }

/-- Embedding of `_run_chart_workflow`: SQL with the preprocessed
query, then Python with `chartVizPrompt` built from the SQL text and
the original query. -/
def runChartWorkflow (env : AgentEnv) (preprocessed origQuery : String)
    (r : OrchResult) : Except (String × OrchResult) OrchResult :=
  match env.sql preprocessed with
  | .error e => .error (e, r)
  | .ok sqlResp =>
    let s := extractFromA2A sqlResp
    match env.python (chartVizPrompt s.text origQuery) with
    | .error e => .error (e, r)
    | .ok pyResp =>
      let p := extractFromA2A pyResp
      .ok { r with
        text := "SQL Data:\n" ++ s.text ++ "\n\nVisualization:\n" ++ p.text
        images := p.images
        agent_responses := r.agent_responses ++ [("sql", s.text), ("python", p.text)] }

/-- Embedding of `_run_three_agent_workflow`: SQL + Databricks in
parallel on the preprocessed query, then Python on
`threeAgentVizPrompt`. -/
def runThreeAgent (env : AgentEnv) (preprocessed origQuery : String)
    (r : OrchResult) : Except (String × OrchResult) OrchResult :=
  match gather2 (env.sql preprocessed) (env.databricks preprocessed) with
  | .error e => .error (e, r)
  | .ok (sqlResp, dbResp) =>
    let s := extractFromA2A sqlResp
    let d := extractFromA2A dbResp
    match env.python (threeAgentVizPrompt s.text d.text origQuery) with
    | .error e => .error (e, r)
    | .ok pyResp =>
      let p := extractFromA2A pyResp
      .ok { r with
        text := combinedData s.text d.text ++ "\n\nVisualization:\n" ++ p.text
        images := p.images
        agent_responses := r.agent_responses ++
          [("sql", s.text), ("databricks", d.text), ("python", p.text)] }

/-- The strategy dispatch inside the `try` block of
`SmartOrchestrator.run`. -/
def execStrategy (env : AgentEnv) (userQuery processed : String)
    (ri : RoutingInfo) (r : OrchResult) : Except (String × OrchResult) OrchResult :=
  if ri.strategy = "three_agent_workflow" then
    runThreeAgent env processed userQuery r
  else if ri.strategy = "sequential_chart" then
    runChartWorkflow env processed userQuery r
  else if ri.strategy = "concurrent_data" then
    runDataWorkflow env userQuery r
  else if ri.strategy = "direct_databricks" then
    runDirectAgent env.databricks userQuery r "databricks"
  else if ri.strategy = "direct_sql" then
    runDirectAgent env.sql userQuery r "sql"
  else
    .ok r

/-- Embedding of `SmartOrchestrator.run`: analyze, preprocess, execute
the strategy, and convert a propagated exception into `error` on the
partially-built result (the single `except` clause at lines 323-329). -/
def runOrchestrator (env : AgentEnv) (userQuery : String) : OrchResult :=
  let ri := analyzeQuery userQuery
  let processed := preprocessQuery userQuery ri
  let r0 : OrchResult := ⟨userQuery, ri, "", [], [], none⟩
  match execStrategy env userQuery processed ri r0 with
  | .ok r => r
  | .error (e, r) => { r with error := some e }

/-- The exception, if any, that the strategy selected for `q` lets
propagate to the top of `SmartOrchestrator.run` — a direct case
analysis over the agent calls each strategy makes, with no result
threading.  Used to state that `error` is set iff an exception
propagated out of the executing strategy. -/
def strategyError (env : AgentEnv) (q : String) : Option String :=
  let ri := analyzeQuery q
  let pre := preprocessQuery q ri
  if ri.strategy = "three_agent_workflow" then
    match gather2 (env.sql pre) (env.databricks pre) with
    | .error e => some e
    | .ok (sr, dr) =>
      match env.python (threeAgentVizPrompt (extractFromA2A sr).text (extractFromA2A dr).text q) with
      | .error e => some e
      | .ok _ => none
  else if ri.strategy = "sequential_chart" then
    match env.sql pre with
    | .error e => some e
    | .ok sr =>
      match env.python (chartVizPrompt (extractFromA2A sr).text q) with
      | .error e => some e
      | .ok _ => none
  else if ri.strategy = "concurrent_data" then
    match gather2 (env.sql q) (env.databricks q) with
    | .error e => some e
    | .ok _ => none
  else if ri.strategy = "direct_databricks" then
    match env.databricks q with
    | .error e => some e
    | .ok _ => none
  else if ri.strategy = "direct_sql" then
    match env.sql q with
    | .error e => some e
    | .ok _ => none
  else none

/-! ### Deep extraction (`streamlit_app.create_visualization`,
lines 142-187): traverses, for each task, the history of prior status messages
in addition to its final status message. -/

/-- The `bytes` attribute of a file part in the deep path: either a
base64 `str` or raw `bytes` (the `isinstance(file_obj.bytes, str)`
branch). -/
inductive PyBytes where
  | str (s : String)
  | raw (b : List Nat)
deriving DecidableEq

/-- Duck-typed file object of the deep path. -/
structure VFile where
  bytes : Option PyBytes
  name : Option String
deriving DecidableEq

/-- Part root of the deep path (`part.root` is accessed
unconditionally there). -/
structure VRoot where
  text : Option String
  file : Option VFile
deriving DecidableEq

/-- A part of the deep path. -/
structure VPart where
  root : VRoot
deriving DecidableEq

/-- A message (history entry or status message) of the deep path. -/
structure VMsg where
  parts : Option (List VPart)
deriving DecidableEq

/-- A task status of the deep path. -/
structure VStatus where
  message : Option VMsg
deriving DecidableEq

/-- A task of the deep path, carrying both the optional `history` of
prior status messages and the optional final `status`. -/
structure VTask where
  history : Option (List VMsg)
  status : Option VStatus
deriving DecidableEq

/-- An A2A response as consumed by the deep path. -/
structure VResponse where
  raw_representation : Option (List VTask)
deriving DecidableEq

/-- One part-root step of `create_visualization`: append the text
(`hasattr` probe only, no truthiness check), else decode the file
bytes.  There is no `try` here: a failed base64 decode raises
(`Except.error`). -/
def vizStepRoot (acc : String × List (List Nat)) (r : VRoot) :
    Except String (String × List (List Nat)) :=
  match r.text with
  | some t => .ok (acc.1 ++ t ++ "\n", acc.2)
  | none =>
    match r.file with
    | some f =>
      match f.bytes with
      | some (.str s) =>
        match b64decode s with
        | some bs => .ok (acc.1, acc.2 ++ [bs])
        | none => .error "binascii.Error: Invalid base64-encoded string"
      | some (.raw b) => .ok (acc.1, acc.2 ++ [b])
      | none => .ok acc
    | none => .ok acc

/-- Run `vizStepRoot` over a flat list of part roots. -/
def vizRunRoots (acc : String × List (List Nat)) :
    List VRoot → Except String (String × List (List Nat))
  | [] => .ok acc
  | r :: rs =>
    match vizStepRoot acc r with
    | .error e => .error e
    | .ok a => vizRunRoots a rs

/-- The inner parts loop over the messages of one history (or the one
final status message), with the truthiness probe on `msg.parts`. -/
def vizRunMsgs (acc : String × List (List Nat)) :
    List VMsg → Except String (String × List (List Nat))
  | [] => .ok acc
  | m :: ms =>
    match m.parts with
    | some ps =>
      if ps.isEmpty then vizRunMsgs acc ms
      else
        match vizRunRoots acc (ps.map VPart.root) with
        | .error e => .error e
        | .ok a => vizRunMsgs a ms
    | none => vizRunMsgs acc ms

/-- The per-task body of `create_visualization`: first the task history
(`if hasattr(task, "history") and task.history`), then the final status
message (`if hasattr(task, "status") and hasattr(task.status,
"message")`). -/
def vizRunTask (acc : String × List (List Nat)) (t : VTask) :
    Except String (String × List (List Nat)) :=
  let afterHistory : Except String (String × List (List Nat)) :=
    match t.history with
    | some hs => if hs.isEmpty then .ok acc else vizRunMsgs acc hs
    | none => .ok acc
  match afterHistory with
  | .error e => .error e
  | .ok a =>
    match t.status with
    | some st =>
      match st.message with
      | some m => vizRunMsgs a [m]
      | none => .ok a
    | none => .ok a

/-- The tasks loop. -/
def vizRunTasks (acc : String × List (List Nat)) :
    List VTask → Except String (String × List (List Nat))
  | [] => .ok acc
  | t :: ts =>
    match vizRunTask acc t with
    | .error e => .error e
    | .ok a => vizRunTasks a ts

/-- Embedding of the extraction performed by
`streamlit_app.create_visualization`: deep traversal over the history and the
final status of each task, then `result_text.strip()`. -/
def createVizExtract (resp : VResponse) : Except String (String × List (List Nat)) :=
  match resp.raw_representation with
  | some tasks =>
    if tasks.isEmpty then .ok ("", [])
    else
      match vizRunTasks ("", []) tasks with
      | .error e => .error e
      | .ok a => .ok (pyStrip a.1, a.2)
  | none => .ok ("", [])

/-- The part roots contributed by one message. -/
def vizMsgRoots (m : VMsg) : List VRoot :=
  match m.parts with
  | some ps => if ps.isEmpty then [] else ps.map VPart.root
  | none => []

/-- The part roots contributed by the history of one task. -/
def taskHistRoots (t : VTask) : List VRoot :=
  match t.history with
  | some hs => if hs.isEmpty then [] else hs.flatMap vizMsgRoots
  | none => []

/-- The part roots contributed by the final status message of one
task. -/
def taskStatusRoots (t : VTask) : List VRoot :=
  match t.status with
  | some st =>
    match st.message with
    | some m => vizMsgRoots m
    | none => []
  | none => []

example : b64decode "QUJD" = some [65, 66, 67] := by decide
example : b64decode "A" = none := by decide
example : b64decode "!!!" = some [] := by decide

example : (analyzeQuery "Show me Bridge 1001 span lengths as a bar chart").strategy
    = "sequential_chart" := by decide
example : previewStrategy "What is the current market price for structural steel in the United States?"
    = "Direct Bing Grounding Agent" := by decide
example : (analyzeQuery "What is the current market price for structural steel in the United States?").strategy
    = "direct_sql" := by decide
example : preprocessQuery "Show me Bridge 1001 span lengths as a bar chart"
    (analyzeQuery "Show me Bridge 1001 span lengths as a bar chart")
    = "Show me Bridge 1001 span lengths" := by decide

/-! ### Concrete scenario data used by the claim theorems -/

/-- A response whose single task carries one text part `"S"`. -/
def respTextS : A2AResponse :=
  ⟨some [⟨some ⟨some ⟨some [.rooted ⟨some "S", none⟩]⟩⟩⟩]⟩

/-- A response whose single task carries one text part `"C"`. -/
def respTextC : A2AResponse :=
  ⟨some [⟨some ⟨some ⟨some [.rooted ⟨some "C", none⟩]⟩⟩⟩]⟩

/-- An environment whose SQL agent answers `"S"`, whose Databricks
agent answers `"C"`, and whose Python agent returns an empty
response. -/
def envBothOk : AgentEnv :=
  ⟨fun _ => .ok respTextS, fun _ => .ok respTextC, fun _ => .ok ⟨none⟩⟩

/-- A result dictionary as initialized at the top of
`SmartOrchestrator.run` for the fan-out scenario query. -/
def r0Fanout : OrchResult :=
  ⟨"Get Bridge 1001 data and GDOT standards",
    analyzeQuery "Get Bridge 1001 data and GDOT standards", "", [], [], none⟩

/-- A response whose single task carries the text `"SPANDATA"`. -/
def respSpanData : A2AResponse :=
  ⟨some [⟨some ⟨some ⟨some [.rooted ⟨some "SPANDATA", none⟩]⟩⟩⟩]⟩

/-- An environment where the SQL (Structural) call succeeds and the
Databricks (Catalog) call raises. -/
def envCatalogFails : AgentEnv :=
  ⟨fun _ => .ok respSpanData, fun _ => .error "catalog agent failed", fun _ => .ok ⟨none⟩⟩

/-- The fan-out query of the partial-failure scenario. -/
def qFanout : String := "Get Bridge 1001 data and GDOT standards"

/-! ### Claim C1 -/

/-- Claim C1 (code bug): the spec and the UI of `streamlit_app_v1.py`
say that any query containing a costing keyword routes, with highest
precedence, to the Search/Costing (Bing Grounding) agent alone; the
preview logic of the UI indeed checks `is_costing` first and announces
the Bing Grounding strategy.  The orchestrator that actually executes
the query contradicts this: `_analyze_query` has no costing facet at
all, and its `agents` list can only ever name SQL, Databricks or
Python, so the predefined costing query of the UI is executed as
`direct_sql`. -/
theorem c1_costing_routing_gap :
    (∀ q : String,
      (analyzeQuery q).agents = ["SQL", "Databricks", "Python"] ∨
      (analyzeQuery q).agents = ["SQL", "Python"] ∨
      (analyzeQuery q).agents = ["SQL", "Databricks"] ∨
      (analyzeQuery q).agents = ["Databricks"] ∨
      (analyzeQuery q).agents = ["SQL"]) ∧
    previewStrategy "What is the current market price for structural steel in the United States?"
      = "Direct Bing Grounding Agent" ∧
    analyzeQuery "What is the current market price for structural steel in the United States?"
      = ⟨"direct_sql", none, ["SQL"], false, false, true⟩ := by
  refine ⟨fun q => ?_, by decide, by decide⟩
  simp only [analyzeQuery]
  split
  · exact Or.inl rfl
  · split
    · exact Or.inr (Or.inl rfl)
    · split
      · exact Or.inr (Or.inr (Or.inl rfl))
      · split
        · exact Or.inr (Or.inr (Or.inr (Or.inl rfl)))
        · split
          · exact Or.inr (Or.inr (Or.inr (Or.inr rfl)))
          · exact Or.inr (Or.inr (Or.inr (Or.inr rfl)))

/-! ### Claim C7 -/

/-- Claim C7 (confirmed): every query containing a visualization
keyword and a structural (SQL) keyword but no catalog (Databricks)
keyword is classified as the sequential pipeline with participating
agents exactly [SQL, Python] — the spec names these agents Structural
and Visualization — in that order. -/
theorem c7_viz_structural_sequential :
    ∀ q : String,
      vizKeywords.any (fun kw => strIn kw (pyLower q)) = true →
      sqlKeywords.any (fun kw => strIn kw (pyLower q)) = true →
      databricksKeywords.any (fun kw => strIn kw (pyLower q)) = false →
      analyzeQuery q =
        ⟨"sequential_chart", some "chart_workflow", ["SQL", "Python"], true, false, true⟩ := by
  intro q hv hs hd
  simp [analyzeQuery, hv, hs, hd]

/-- Witness for C7 at the concrete query `"plot bridge spans"`. -/
theorem c7_witness :
    analyzeQuery "plot bridge spans" =
      ⟨"sequential_chart", some "chart_workflow", ["SQL", "Python"], true, false, true⟩ :=
  c7_viz_structural_sequential "plot bridge spans" (by decide) (by decide) (by decide)

/-! ### Claim C3 -/

/-- Counterexample for claim C3: in the concurrent fan-out with
Structural text `"S"` and Catalog text `"C"`, the merged text produced
by `_run_data_workflow` is
`"=== SQL Foundry Agent ===\nS\n\n=== Databricks Agent ===\nC"`, which
is not the literal string `"=== Structural ===\nS\n\n=== Catalog ===\nC"`
asserted by the claim (the section order and separators agree, the
header labels do not). -/
theorem c3_counterexample :
    runDataWorkflow envBothOk "Get Bridge 1001 data and GDOT standards" r0Fanout =
      .ok { r0Fanout with
        text := "=== SQL Foundry Agent ===\nS\n\n=== Databricks Agent ===\nC"
        images := []
        agent_responses := [("sql", "S"), ("databricks", "C")] } ∧
    "=== SQL Foundry Agent ===\nS\n\n=== Databricks Agent ===\nC"
      ≠ "=== Structural ===\nS\n\n=== Catalog ===\nC" := by
  exact ⟨rfl, by decide⟩

/-- Claim C3 as amended (the header labels are the ones in the source,
`"=== SQL Foundry Agent ==="` for the Structural section and
`"=== Databricks Agent ==="` for the Catalog section; everything else
is as claimed): the Structural section comes first, the two sections
are separated by `"\n\n"`, each header is followed by one `"\n"`, and
the merged images are the Structural images followed by the Catalog
images, each list preserving its internal order. -/
theorem c3_merge_format :
    ∀ (env : AgentEnv) (q : String) (r : OrchResult) (s d : A2AResponse)
      (t1 t2 : String) (i1 i2 : List ImageInfo),
      env.sql q = .ok s → env.databricks q = .ok d →
      extractFromA2A s = ⟨t1, i1⟩ → extractFromA2A d = ⟨t2, i2⟩ →
      runDataWorkflow env q r = .ok { r with
        text := "=== SQL Foundry Agent ===\n" ++ t1 ++ "\n\n=== Databricks Agent ===\n" ++ t2
        images := i1 ++ i2
        agent_responses := r.agent_responses ++ [("sql", t1), ("databricks", t2)] } := by
  intro env q r s d t1 t2 i1 i2 hs hd he1 he2
  simp [runDataWorkflow, gather2, hs, hd, he1, he2]

/-- Witness for the amended C3 on a concrete fan-out run. -/
theorem c3_witness :
    runDataWorkflow envBothOk "Get Bridge 1001 data and GDOT standards" r0Fanout =
      .ok { r0Fanout with
        text := "=== SQL Foundry Agent ===\nS\n\n=== Databricks Agent ===\nC"
        images := ([] : List ImageInfo) ++ []
        agent_responses := r0Fanout.agent_responses ++ [("sql", "S"), ("databricks", "C")] } :=
  c3_merge_format envBothOk "Get Bridge 1001 data and GDOT standards" r0Fanout
    respTextS respTextC "S" "C" [] [] rfl rfl rfl rfl

/-! ### Claim C2 -/

/-- Counterexample for claim C2: with an environment where the SQL
(Structural) call returns the text `"SPANDATA"` and the Databricks
(Catalog) call raises, the orchestrator sets `error` — but
`agent_responses` is empty: the text of the Structural agent is *not*
preserved, because `asyncio.gather` re-raises before
`_run_data_workflow` performs any extraction or result write. -/
theorem c2_counterexample :
    (runOrchestrator envCatalogFails qFanout).error = some "catalog agent failed" ∧
    (runOrchestrator envCatalogFails qFanout).agent_responses = [] := by
  exact ⟨rfl, rfl⟩

/-- Claim C2 as amended: when the Catalog call raises in the
concurrent fan-out, `Result.error` is set to the message of that exception,
but the data of the succeeded Structural branch is discarded — the returned
result has empty text, no images, and an *empty* `agent_responses`
map. -/
theorem c2_fanout_failure_discards :
    ∀ (env : AgentEnv) (q : String) (resp : A2AResponse) (msg : String),
      (analyzeQuery q).strategy = "concurrent_data" →
      env.sql q = .ok resp →
      env.databricks q = .error msg →
      runOrchestrator env q =
        { query := q, routing := analyzeQuery q, text := "", images := [],
          agent_responses := [], error := some msg } := by
  intro env q resp msg hstrat hsql hdb
  have h3 : (analyzeQuery q).strategy ≠ "three_agent_workflow" := by
    rw [hstrat]; decide
  have h2 : (analyzeQuery q).strategy ≠ "sequential_chart" := by
    rw [hstrat]; decide
  simp [runOrchestrator, execStrategy, h3, h2, hstrat, runDataWorkflow, gather2, hsql, hdb]

/-- Witness for the amended C2 on the concrete failing fan-out run. -/
theorem c2_witness :
    runOrchestrator envCatalogFails qFanout =
      { query := qFanout, routing := analyzeQuery qFanout, text := "", images := [],
        agent_responses := [], error := some "catalog agent failed" } :=
  c2_fanout_failure_discards envCatalogFails qFanout respSpanData "catalog agent failed"
    (by decide) rfl rfl

/-! ### Claim C5 -/

/-- A successful `isPrefixOf` bounds the pattern length. -/
theorem isPrefixOf_length_le :
    ∀ (p l : List Char), p.isPrefixOf l = true → p.length ≤ l.length := by
  intro p
  induction p with
  | nil => intro l _; simp
  | cons a as ih =>
    intro l h
    cases l with
    | nil => simp [List.isPrefixOf] at h
    | cons b bs =>
      simp only [List.isPrefixOf, Bool.and_eq_true] at h
      have := ih bs h.2
      simp only [List.length_cons]
      omega

/-- Length accounting for the fuelled deletion scan: every occurrence
counted by `countMatchesFuel` is deleted, each removing exactly
`pat.length` characters. -/
theorem replaceAllFuel_length (pat : List Char) (hp : pat ≠ []) :
    ∀ (fuel : Nat) (s : List Char), s.length ≤ fuel →
      (replaceAllFuel pat fuel s).length + pat.length * countMatchesFuel pat fuel s
        = s.length := by
  intro fuel
  induction fuel with
  | zero =>
    intro s hs
    cases s with
    | nil => simp [replaceAllFuel, countMatchesFuel]
    | cons c rest => simp at hs
  | succ n ih =>
    intro s hs
    cases s with
    | nil => simp [replaceAllFuel, countMatchesFuel]
    | cons c rest =>
      by_cases h : pat ≠ [] ∧ pat.isPrefixOf (c :: rest)
      · rw [replaceAllFuel, countMatchesFuel, if_pos h, if_pos h]
        have hlen : pat.length ≤ rest.length + 1 := by
          have := isPrefixOf_length_le pat (c :: rest) h.2
          simpa using this
        have hp1 : 1 ≤ pat.length := by
          cases pat with
          | nil => exact absurd rfl hp
          | cons x xs => simp
        have hdrop : (rest.drop (pat.length - 1)).length = rest.length - (pat.length - 1) := by
          simp [List.length_drop]
        have ihm := ih (rest.drop (pat.length - 1)) (by
          rw [hdrop]
          simp only [List.length_cons] at hs
          omega)
        rw [Nat.mul_add, Nat.mul_one]
        simp only [List.length_cons]
        omega
      · rw [replaceAllFuel, countMatchesFuel, if_neg h, if_neg h]
        have ihr := ih rest (by simp only [List.length_cons] at hs; omega)
        simp only [List.length_cons]
        omega

/-- A routing decision with the visualization facet set, as used by the
preprocessing claims. -/
def vizDecision : RoutingInfo :=
  ⟨"sequential_chart", some "chart_workflow", ["SQL", "Python"], true, false, true⟩

/-- Counterexample for claim C5: on the query
`"visualize and visualize data"`, whose phrase `"visualize"` occurs
twice, `_preprocess_query` returns `"and  data"` — no occurrence of
`"visualize"` remains, contradicting the claim that only the first
occurrence is deleted and later occurrences remain (the claimed output
would be `"and visualize data"`). -/
theorem c5_counterexample :
    preprocessQuery "visualize and visualize data" vizDecision = "and  data" ∧
    isInfixB "visualize".data (preprocessQuery "visualize and visualize data" vizDecision).data
      = false := by
  exact ⟨by decide, by decide⟩

/-- Claim C5 as amended: for a visualization decision,
`_preprocess_query` deletes, for each configured phrase in the fixed
order, *every* left-to-right non-overlapping literal (case-sensitive)
occurrence of that phrase — not only the first — and then trims
surrounding whitespace.  The first conjunct accounts for the deletion
scan in general: the output length drops by exactly the phrase length
times the number of scanned occurrences; the remaining conjuncts
evaluate the full preprocessing on queries containing a phrase twice,
showing both occurrences gone and whitespace trimmed. -/
theorem c5_removes_every_occurrence :
    (∀ (pat s : List Char), pat ≠ [] →
      (replaceAll pat s).length + pat.length * countMatches pat s = s.length) ∧
    preprocessQuery "visualize and visualize data" vizDecision = "and  data" ∧
    preprocessQuery "graph this graph this now" vizDecision = "now" := by
  refine ⟨fun pat s hp => ?_, by decide, by decide⟩
  exact replaceAllFuel_length pat hp s.length s le_rfl

/-- Witness for the amended C5: the accounting identity at the phrase
`"visualize"` and the double-occurrence query (28 characters, two
9-character occurrences, 10 characters left). -/
theorem c5_witness :
    (replaceAll "visualize".data "visualize and visualize data".data).length
      + "visualize".data.length * countMatches "visualize".data "visualize and visualize data".data
      = "visualize and visualize data".data.length :=
  c5_removes_every_occurrence.1 "visualize".data "visualize and visualize data".data (by decide)

/-! ### Claim C9 -/

/-- Per task, the guarded nested traversal of
`_extract_from_a2a_response` equals a flat fold over the roots that are
actually present. -/
theorem taskStep_eq_fold (acc : List String × List ImageInfo) (t : A2ATask) :
    taskStep acc t = (taskRootsOf t).foldl partStep acc := by
  obtain ⟨st⟩ := t
  cases st with
  | none => rfl
  | some ts =>
    obtain ⟨msg⟩ := ts
    cases msg with
    | none => rfl
    | some m =>
      obtain ⟨ps⟩ := m
      cases ps with
      | none => rfl
      | some l =>
        cases l with
        | nil => rfl
        | cons p ls =>
          simp [taskStep, taskRootsOf, List.foldl_map]

/-- The tasks loop equals a flat fold over all reachable roots. -/
theorem foldl_taskStep_eq :
    ∀ (l : List A2ATask) (acc : List String × List ImageInfo),
      l.foldl taskStep acc = (l.flatMap taskRootsOf).foldl partStep acc := by
  intro l
  induction l with
  | nil => intro acc; rfl
  | cons t ts ih =>
    intro acc
    rw [List.foldl_cons, taskStep_eq_fold, ih, List.flatMap_cons, List.foldl_append]

/-- `_extract_from_a2a_response` equals the flat single pass over the
reachable roots. -/
theorem extract_eq_payload (resp : A2AResponse) :
    extractFromA2A resp = payloadOfRoots (responseRoots resp) := by
  obtain ⟨rr⟩ := resp
  cases rr with
  | none => rfl
  | some tasks =>
    cases tasks with
    | nil => rfl
    | cons t ts =>
      simp only [extractFromA2A, List.isEmpty_cons, payloadOfRoots, responseRoots,
        Option.getD_some, if_neg Bool.false_ne_true]
      rw [foldl_taskStep_eq]

/-- Claim C9 (confirmed): the extractor of the orchestrator is total —
it is a function returning an `ExtractedPayload` on *every* response
value — and defensive: it equals one flat pass over the part roots that
are actually reachable, a response with no `raw_representation` yields
the empty payload, a task missing its `status`, its `status.message`
or its `message.parts` contributes nothing, and a part root missing
both `text` and `file`, or a file missing `bytes`, contributes
nothing. -/
theorem c9_extractor_total_defensive :
    (∀ resp : A2AResponse, extractFromA2A resp = payloadOfRoots (responseRoots resp)) ∧
    extractFromA2A ⟨none⟩ = ⟨"", []⟩ ∧
    (∀ ts : List A2ATask, extractFromA2A ⟨some (⟨none⟩ :: ts)⟩ = extractFromA2A ⟨some ts⟩) ∧
    (∀ ts : List A2ATask,
      extractFromA2A ⟨some (⟨some ⟨none⟩⟩ :: ts)⟩ = extractFromA2A ⟨some ts⟩) ∧
    (∀ ts : List A2ATask,
      extractFromA2A ⟨some (⟨some ⟨some ⟨none⟩⟩⟩ :: ts)⟩ = extractFromA2A ⟨some ts⟩) ∧
    (∀ acc : List String × List ImageInfo, partStep acc ⟨none, none⟩ = acc) ∧
    (∀ (acc : List String × List ImageInfo) (mt nm : Option String),
      partStep acc ⟨none, some ⟨none, mt, nm⟩⟩ = acc) := by
  refine ⟨extract_eq_payload, rfl, fun ts => ?_, fun ts => ?_, fun ts => ?_,
    fun acc => rfl, fun acc mt nm => rfl⟩ <;>
  · rw [extract_eq_payload, extract_eq_payload]
    simp [responseRoots, taskRootsOf]

/-! ### Claim C4 -/

/-- Running the deep per-root step over an appended root list splits
into consecutive runs. -/
theorem vizRunRoots_append :
    ∀ (xs ys : List VRoot) (acc : String × List (List Nat)),
      vizRunRoots acc (xs ++ ys) =
        match vizRunRoots acc xs with
        | .error e => .error e
        | .ok a => vizRunRoots a ys := by
  intro xs
  induction xs with
  | nil => intro ys acc; rfl
  | cons r rs ih =>
    intro ys acc
    simp only [List.cons_append, vizRunRoots]
    cases vizStepRoot acc r with
    | error e => rfl
    | ok a => exact ih ys a

/-- The messages loop of the deep path equals a flat run over the
roots its messages carry. -/
theorem vizRunMsgs_eq :
    ∀ (ms : List VMsg) (acc : String × List (List Nat)),
      vizRunMsgs acc ms = vizRunRoots acc (ms.flatMap vizMsgRoots) := by
  intro ms
  induction ms with
  | nil => intro acc; rfl
  | cons m ms ih =>
    intro acc
    obtain ⟨ps⟩ := m
    cases ps with
    | none => simpa [vizRunMsgs, vizMsgRoots] using ih acc
    | some l =>
      cases l with
      | nil => simpa [vizRunMsgs, vizMsgRoots] using ih acc
      | cons p ls =>
        simp only [vizRunMsgs, vizMsgRoots, List.isEmpty_cons, List.flatMap_cons,
          if_neg Bool.false_ne_true]
        rw [vizRunRoots_append]
        cases vizRunRoots acc ((p :: ls).map VPart.root) with
        | error e => rfl
        | ok a => exact ih a

/-- One task of the deep path contributes its history roots first,
then its final status-message roots. -/
theorem vizRunTask_eq :
    ∀ (t : VTask) (acc : String × List (List Nat)),
      vizRunTask acc t = vizRunRoots acc (taskHistRoots t ++ taskStatusRoots t) := by
  intro t acc
  obtain ⟨hist, st⟩ := t
  have statusPart : ∀ (a : String × List (List Nat)),
      (match st with
        | some s0 =>
          match s0.message with
          | some m => vizRunMsgs a [m]
          | none => Except.ok a
        | none => Except.ok a) =
        vizRunRoots a (taskStatusRoots ⟨hist, st⟩) := by
    intro a
    cases st with
    | none => rfl
    | some s0 =>
      obtain ⟨m0⟩ := s0
      cases m0 with
      | none => rfl
      | some m => simp [vizRunMsgs_eq, taskStatusRoots, vizMsgRoots]
  cases hist with
  | none =>
    simp only [vizRunTask, taskHistRoots, List.nil_append]
    exact statusPart acc
  | some hs =>
    cases hs with
    | nil =>
      simp only [vizRunTask, taskHistRoots, List.isEmpty_nil, if_pos rfl, List.nil_append]
      exact statusPart acc
    | cons m0 ms0 =>
      simp only [vizRunTask, taskHistRoots, List.isEmpty_cons, if_neg Bool.false_ne_true]
      rw [vizRunMsgs_eq, vizRunRoots_append]
      cases vizRunRoots acc ((m0 :: ms0).flatMap vizMsgRoots) with
      | error e => rfl
      | ok a => exact statusPart a

/-- The tasks loop of the deep path equals a flat run over, per task,
the history roots followed by the final-status roots. -/
theorem vizRunTasks_eq :
    ∀ (ts : List VTask) (acc : String × List (List Nat)),
      vizRunTasks acc ts =
        vizRunRoots acc (ts.flatMap fun t => taskHistRoots t ++ taskStatusRoots t) := by
  intro ts
  induction ts with
  | nil => intro acc; rfl
  | cons t ts ih =>
    intro acc
    simp only [vizRunTasks, List.flatMap_cons]
    rw [vizRunRoots_append, vizRunTask_eq]
    cases vizRunRoots acc (taskHistRoots t ++ taskStatusRoots t) with
    | error e => rfl
    | ok a => exact ih a

/-- Claim C4 (confirmed): the deep extraction used by the
visualization-consuming path (`create_visualization` of
`streamlit_app.py`) descends into the `history` each task keeps of prior
status messages in addition to the final status message: the whole
traversal equals one flat pass over, for each task, the history roots
followed by the final-status roots.  In particular (second conjunct) a
text part and an image file part carried *only* by an intermediate
working-status update — the final status message has no parts — are
included in the extracted payload. -/
theorem c4_deep_extraction_includes_history :
    (∀ tasks : List VTask,
      createVizExtract ⟨some tasks⟩ =
        (vizRunRoots ("", []) (tasks.flatMap fun t => taskHistRoots t ++ taskStatusRoots t)).map
          (fun a => (pyStrip a.1, a.2))) ∧
    createVizExtract ⟨some [⟨some [⟨some [⟨⟨some "Working on chart", none⟩⟩,
        ⟨⟨none, some ⟨some (.str "QUJD"), some "chart.png"⟩⟩⟩]⟩], some ⟨some ⟨none⟩⟩⟩]⟩
      = .ok ("Working on chart", [[65, 66, 67]]) := by
  constructor
  · intro tasks
    cases tasks with
    | nil => rfl
    | cons t ts =>
      simp only [createVizExtract, List.isEmpty_cons, if_neg Bool.false_ne_true]
      rw [vizRunTasks_eq]
      cases vizRunRoots ("", []) ((t :: ts).flatMap fun t => taskHistRoots t ++ taskStatusRoots t) with
      | error e => rfl
      | ok a => rfl
  · rfl

/-! ### Claim C10 -/

/-- A response whose single task carries a text part `"hello"`, a file
part whose bytes `"A"` are not valid base64 (one leftover character),
and a file part with valid base64 bytes `"QUJD"` (decoding to
`[65, 66, 67]`). -/
def respBadAndGood : A2AResponse :=
  ⟨some [⟨some ⟨some ⟨some [.rooted ⟨some "hello", none⟩,
    .rooted ⟨none, some ⟨some "A", none, none⟩⟩,
    .rooted ⟨none, some ⟨some "QUJD", none, none⟩⟩]⟩⟩⟩]⟩

/-- Claim C10 (confirmed): in `_extract_from_a2a_response`, a file
part whose carried bytes fail base64 decoding is silently skipped —
the decoding exception is caught and no image is appended — while text
parts and other validly-decoded image parts from the same response are
still returned.  The first conjunct shows a failing file part leaves
the accumulator untouched for any accumulator; the second evaluates
the whole extractor on a response mixing a text part, a bad file part
and a good file part. -/
theorem c10_bad_base64_skipped :
    (∀ (acc : List String × List ImageInfo) (mt nm : Option String) (b : String),
      b64decode b = none →
      partStep acc ⟨none, some ⟨some b, mt, nm⟩⟩ = acc) ∧
    extractFromA2A respBadAndGood =
      ⟨"hello", [⟨[65, 66, 67], "image/png", "image.png"⟩]⟩ := by
  constructor
  · intro acc mt nm b hb
    by_cases hb0 : b = "" <;> simp [partStep, partTextOk, hb, hb0]
  · rfl

/-- Witness for C10 at the concrete invalid base64 string `"A"`. -/
theorem c10_witness :
    partStep (["t"], []) ⟨none, some ⟨some "A", none, none⟩⟩ = (["t"], []) :=
  c10_bad_base64_skipped.1 (["t"], []) none none "A" (by decide)

/-! ### Claim C8 -/

/-- Claim C8 (confirmed): in the sequential pipeline, the Structural
(SQL) agent is called with the preprocessed query; the Visualization
(Python) agent is called with the literal concatenation of a fixed
instruction, the extracted Structural text and the original
non-preprocessed query; the merged text is the label `"SQL Data:"`, a
newline, the Structural text, the separator `"\n\nVisualization:\n"`,
and the Visualization text; and the merged images are exactly the
images of the Visualization payload. -/
theorem c8_sequential_pipeline :
    ∀ (env : AgentEnv) (q : String) (sResp pResp : A2AResponse) (s v : String)
      (sImgs vImgs : List ImageInfo),
      (analyzeQuery q).strategy = "sequential_chart" →
      env.sql (preprocessQuery q (analyzeQuery q)) = .ok sResp →
      extractFromA2A sResp = ⟨s, sImgs⟩ →
      env.python (chartVizPrompt s q) = .ok pResp →
      extractFromA2A pResp = ⟨v, vImgs⟩ →
      chartVizPrompt s q
          = "Create a bar chart for this data:\n\n" ++ s ++ "\n\nOriginal request: " ++ q ∧
      runOrchestrator env q =
        { query := q, routing := analyzeQuery q,
          text := "SQL Data:\n" ++ s ++ "\n\nVisualization:\n" ++ v,
          images := vImgs,
          agent_responses := [("sql", s), ("python", v)],
          error := none } := by
  intro env q sResp pResp s v sImgs vImgs hstrat hsql hexs hpy hexp
  have h3 : (analyzeQuery q).strategy ≠ "three_agent_workflow" := by
    rw [hstrat]; decide
  refine ⟨rfl, ?_⟩
  simp [runOrchestrator, execStrategy, h3, hstrat, runChartWorkflow, hsql, hexs, hpy, hexp]

/-- A response whose single task carries the text `"DATA1"`. -/
def respData1 : A2AResponse :=
  ⟨some [⟨some ⟨some ⟨some [.rooted ⟨some "DATA1", none⟩]⟩⟩⟩]⟩

/-- A response carrying the text `"VIZTEXT"` and one chart image. -/
def respVizChart : A2AResponse :=
  ⟨some [⟨some ⟨some ⟨some [.rooted ⟨some "VIZTEXT", none⟩,
    .rooted ⟨none, some ⟨some "QUJD", some "image/png", some "chart.png"⟩⟩]⟩⟩⟩]⟩

/-- An environment for the sequential pipeline witness. -/
def envChart : AgentEnv :=
  ⟨fun _ => .ok respData1, fun _ => .error "unused", fun _ => .ok respVizChart⟩

/-- Witness for C8 at the concrete query `"plot bridge spans"`. -/
theorem c8_witness :
    chartVizPrompt "DATA1" "plot bridge spans"
        = "Create a bar chart for this data:\n\nDATA1\n\nOriginal request: plot bridge spans" ∧
    runOrchestrator envChart "plot bridge spans" =
      { query := "plot bridge spans", routing := analyzeQuery "plot bridge spans",
        text := "SQL Data:\nDATA1\n\nVisualization:\nVIZTEXT",
        images := [⟨[65, 66, 67], "image/png", "chart.png"⟩],
        agent_responses := [("sql", "DATA1"), ("python", "VIZTEXT")],
        error := none } :=
  c8_sequential_pipeline envChart "plot bridge spans" respData1 respVizChart
    "DATA1" "VIZTEXT" [] [⟨[65, 66, 67], "image/png", "chart.png"⟩]
    (by decide) rfl rfl rfl rfl

/-! ### Claim C6 -/

/-- Claim C6 (confirmed): `SmartOrchestrator.run` returns a result
whose `error` field is set if and only if an exception propagated out
of the executing strategy, and the error string is exactly the
message of that exception — `strategyError` computes, per strategy, the
exception its agent calls let propagate, with no result threading;
when no call fails the `error` field is `none`.  The patterns
themselves never set `error`: the conversion happens once, at the
`except` clause of `run`. -/
theorem c6_error_iff_strategy_exception :
    ∀ (env : AgentEnv) (q : String),
      (runOrchestrator env q).error = strategyError env q := by
  intro env q
  simp only [runOrchestrator, strategyError, execStrategy]
  by_cases h1 : (analyzeQuery q).strategy = "three_agent_workflow"
  · simp only [h1, reduceIte, runThreeAgent]
    cases hg : gather2 (env.sql (preprocessQuery q (analyzeQuery q)))
        (env.databricks (preprocessQuery q (analyzeQuery q))) with
    | error e => simp [hg]
    | ok pr =>
      obtain ⟨sr, dr⟩ := pr
      cases hp : env.python (threeAgentVizPrompt (extractFromA2A sr).text (extractFromA2A dr).text q) with
      | error e => simp [hg, hp]
      | ok pyr => simp [hg, hp]
  · simp only [if_neg h1]
    by_cases h2 : (analyzeQuery q).strategy = "sequential_chart"
    · simp only [h2, reduceIte, runChartWorkflow]
      cases hs : env.sql (preprocessQuery q (analyzeQuery q)) with
      | error e => simp [hs]
      | ok sr =>
        cases hp : env.python (chartVizPrompt (extractFromA2A sr).text q) with
        | error e => simp [hs, hp]
        | ok pyr => simp [hs, hp]
    · simp only [if_neg h2]
      by_cases h3 : (analyzeQuery q).strategy = "concurrent_data"
      · simp only [h3, reduceIte, runDataWorkflow]
        cases hg : gather2 (env.sql q) (env.databricks q) with
        | error e => simp [hg]
        | ok pr => obtain ⟨sr, dr⟩ := pr; simp [hg]
      · simp only [if_neg h3]
        by_cases h4 : (analyzeQuery q).strategy = "direct_databricks"
        · simp only [h4, reduceIte, runDirectAgent]
          cases hd : env.databricks q with
          | error e => simp [hd]
          | ok r => simp [hd]
        · simp only [if_neg h4]
          by_cases h5 : (analyzeQuery q).strategy = "direct_sql"
          · simp only [h5, reduceIte, runDirectAgent]
            cases hs : env.sql q with
            | error e => simp [hs]
            | ok r => simp [hs]
          · simp only [if_neg h5]
